import Mathlib

/-!
Shallow embedding of `src/operator.ts` (OperatorAgent): an autonomous
operator loop that polls an external auction contract and drives it to
completion.  The embedding mirrors the source function by function:

* `checkAuctionStatus` (operator.ts lines 180-255) becomes a pure function
  from an `Oracle` — the outcomes of the external reads, transaction
  submissions and confirmation waits of one reconciliation cycle — to the
  ordered list of external interactions (`Event`s) the cycle performs,
  together with the error the surrounding try/catch logged, if any.
  `ethers.BigNumber` amounts become `Nat`; addresses and the bytes32 proof
  hash stay hex strings, as in the source.
* the configuration constants (lines 9-18) become the corresponding `Nat`
  and `String` definitions; the `process.env` reads become functions of an
  environment `String → Option String`.
* `startPolling` (lines 257-260) installs `setInterval(checkAuctionStatus,
  POLL_INTERVAL)`: the timer fires every `POLL_INTERVAL` milliseconds and
  each firing starts a new invocation of the async callback unconditionally
  (JavaScript timers do not wait for a previous async invocation to settle).
  This is modelled by `tickTime` and `pollCycleRunningAt` over an externally
  determined duration for each invocation.
* `main` (lines 265-270) awaits one eager `checkAuctionStatus()` and then
  calls `startPolling`; `cycleSchedule` gives the resulting start times.
-/

namespace OperatorAgent

/-- Result tuple of `getAuctionState()` (ABI line 37, destructured at
operator.ts lines 182-186): current price, active flag, time remaining. -/
structure AuctionSnapshot where
  currentPrice : Nat
  isActive : Bool
  timeRemaining : Nat
deriving DecidableEq

/-- Result of `getWinnerInfo()` (ABI line 38, read at operator.ts lines
201-203): winner address (hex string), winning bid, winning token id. -/
structure WinnerInfo where
  winner : String
  winningBid : Nat
  winningTokenId : Nat
deriving DecidableEq

/-- Result of `getAdminState()` (ABI line 39, read at operator.ts lines
222-224): proof-submitted flag, claimed flag, ended flag. -/
structure AdminState where
  proofSubmitted : Bool
  claimed : Bool
  ended : Bool
deriving DecidableEq

/-- Model of `ethers.constants.AddressZero`, the sentinel the winner address
is compared against at operator.ts line 205: the 20-byte zero address. -/
def addressZero : String := "0x" ++ String.join (List.replicate 40 ("0"))

/-- Zeroed bytes32 proof value built at operator.ts line 231:
`"0x" + "0".repeat(64)`. -/
def zeroProof : String := "0x" ++ String.join (List.replicate 64 ("0"))

/-- Start price for new auctions, operator.ts line 15:
`ethers.utils.parseUnits("100", 18)`. -/
def NEW_AUCTION_START_PRICE : Nat := 100 * 10 ^ 18

/-- End price for new auctions, operator.ts line 16:
`ethers.utils.parseUnits("10", 18)`. -/
def NEW_AUCTION_END_PRICE : Nat := 10 * 10 ^ 18

/-- Polling interval in milliseconds, operator.ts line 18: `15 * 1000`,
a plain constant with no `process.env` read. -/
def POLL_INTERVAL : Nat := 15 * 1000

/-- Configuration read at operator.ts lines 9-10: `process.env.PROVIDER_WS`
with a literal fallback.  The environment is a partial map from variable
names to values. -/
def PROVIDER_WS (env : String → Option String) : String :=
  (env ("PROVIDER_WS")).getD ("wss://your.websocket.provider")

/-- Configuration read at operator.ts line 11: `process.env.PRIVATE_KEY`. -/
def PRIVATE_KEY (env : String → Option String) : String :=
  (env ("PRIVATE_KEY")).getD ("")

/-- Configuration read at operator.ts line 12:
`process.env.CONTRACT_ADDRESS`. -/
def CONTRACT_ADDRESS (env : String → Option String) : String :=
  (env ("CONTRACT_ADDRESS")).getD ("")

/-- The polling interval viewed, like the other configuration values, as a
function of the process environment.  Operator.ts line 18 defines
`POLL_INTERVAL = 15 * 1000` without consulting `process.env`, so this
function is constant in its argument. -/
def pollIntervalOf (_env : String → Option String) : Nat := 15 * 1000

/-- State-transition commands the operator can submit (ABI lines 33-36). -/
inductive Action where
  | endAuctionNoBids : Action
  | startAuction (startPrice endPrice : Nat) : Action
  | submitProof (tokenId : Nat) (proofHash : String) : Action
  | claimPayment (tokenId : Nat) : Action
deriving DecidableEq

/-- External interactions a reconciliation cycle performs, in order: each
read attempt (with its result on success), each transaction submission
(`sendOk` when `await contract.f(...)` returns a tx, `sendErr` when it
throws) and each confirmation wait (`await tx.wait()`). -/
inductive Event where
  | getAuctionStateOk (s : AuctionSnapshot) : Event
  | getAuctionStateErr : Event
  | getWinnerInfoOk (w : WinnerInfo) : Event
  | getWinnerInfoErr : Event
  | getAdminStateOk (a : AdminState) : Event
  | getAdminStateErr : Event
  | sendOk (a : Action) : Event
  | sendErr (a : Action) : Event
  | waitOk (a : Action) : Event
  | waitErr (a : Action) : Event
deriving DecidableEq

/-- True on the events recording a failed external call. -/
def Event.isFailure : Event → Bool
  | Event.getAuctionStateErr => true
  | Event.getWinnerInfoErr => true
  | Event.getAdminStateErr => true
  | Event.sendErr _ => true
  | Event.waitErr _ => true
  | _ => false

/-- True on the events recording the `getAuctionState()` snapshot read. -/
def Event.isSnapshotRead : Event → Bool
  | Event.getAuctionStateOk _ => true
  | Event.getAuctionStateErr => true
  | _ => false

/-- True on the events recording the `getAdminState()` settlement read. -/
def Event.isAdminRead : Event → Bool
  | Event.getAdminStateOk _ => true
  | Event.getAdminStateErr => true
  | _ => false

/-- Outcomes the external system supplies to one reconciliation cycle: the
result of each of the three reads, and for every action the result of
submitting it (a tx-hash id on success) and of waiting for confirmation.
An `Except.error` models the corresponding `await` throwing. -/
structure Oracle where
  getAuctionStateRes : Except String AuctionSnapshot
  getWinnerInfoRes : Except String WinnerInfo
  getAdminStateRes : Except String AdminState
  sendRes : Action → Except String Nat
  waitRes : Action → Except String Unit

/-- One `const tx = await contract.f(...)` followed by `await tx.wait()`:
submit the action, then wait for confirmation, stopping at the first
failure. -/
def dispatchAndWait (o : Oracle) (a : Action) : List Event × Except String Unit :=
  match o.sendRes a with
  | Except.error e => ([Event.sendErr a], Except.error e)
  | Except.ok _ =>
      match o.waitRes a with
      | Except.error e => ([Event.sendOk a, Event.waitErr a], Except.error e)
      | Except.ok _ => ([Event.sendOk a, Event.waitOk a], Except.ok ())

/-- Body of `checkAuctionStatus` (operator.ts lines 181-251), i.e. the code
inside the `try`.  Mirrors the source control flow exactly: read the
snapshot; if active, log and return; otherwise read the winner; if the
winner is the zero-address sentinel, dispatch `endAuctionNoBids` then
`startAuction(NEW_AUCTION_START_PRICE, NEW_AUCTION_END_PRICE)`; otherwise
read the admin state and dispatch `submitProof(winningTokenId, zeroProof)`
when the proof is missing, else `claimPayment(winningTokenId)` when not yet
claimed, else `startAuction` when fully settled.  Returns the interaction
trace and the outcome that reaches the `catch`. -/
def checkAuctionStatusBody (o : Oracle) : List Event × Except String Unit :=
  match o.getAuctionStateRes with
  | Except.error e => ([Event.getAuctionStateErr], Except.error e)
  | Except.ok s =>
    if s.isActive then
      ([Event.getAuctionStateOk s], Except.ok ())
    else
      match o.getWinnerInfoRes with
      | Except.error e =>
          ([Event.getAuctionStateOk s, Event.getWinnerInfoErr], Except.error e)
      | Except.ok w =>
        if w.winner = addressZero then
          match dispatchAndWait o Action.endAuctionNoBids with
          | (tr1, Except.error e) =>
              (Event.getAuctionStateOk s :: Event.getWinnerInfoOk w :: tr1,
               Except.error e)
          | (tr1, Except.ok _) =>
              let r2 := dispatchAndWait o
                (Action.startAuction NEW_AUCTION_START_PRICE NEW_AUCTION_END_PRICE)
              (Event.getAuctionStateOk s :: Event.getWinnerInfoOk w :: (tr1 ++ r2.1),
               r2.2)
        else
          match o.getAdminStateRes with
          | Except.error e =>
              ([Event.getAuctionStateOk s, Event.getWinnerInfoOk w,
                Event.getAdminStateErr], Except.error e)
          | Except.ok ad =>
            let hdr := [Event.getAuctionStateOk s, Event.getWinnerInfoOk w,
                        Event.getAdminStateOk ad]
            if !ad.proofSubmitted then
              let r := dispatchAndWait o
                (Action.submitProof w.winningTokenId zeroProof)
              (hdr ++ r.1, r.2)
            else if ad.proofSubmitted && !ad.claimed then
              let r := dispatchAndWait o (Action.claimPayment w.winningTokenId)
              (hdr ++ r.1, r.2)
            else if ad.proofSubmitted && ad.claimed then
              let r := dispatchAndWait o
                (Action.startAuction NEW_AUCTION_START_PRICE NEW_AUCTION_END_PRICE)
              (hdr ++ r.1, r.2)
            else
              (hdr, Except.ok ())

/-- `checkAuctionStatus` with its surrounding try/catch (operator.ts lines
180-255): whatever the body does, the function returns normally with the
interaction trace and, when the body threw, the error message the `catch`
block logged via `console.error`. -/
def checkAuctionStatus (o : Oracle) : List Event × Option String :=
  match checkAuctionStatusBody o with
  | (tr, Except.ok _) => (tr, none)
  | (tr, Except.error e) => (tr, some e)

/-- State-transition commands submitted (or whose submission was attempted)
during a trace, in order. -/
def dispatchCalls (tr : List Event) : List Action :=
  tr.filterMap fun ev =>
    match ev with
    | Event.sendOk a => some a
    | Event.sendErr a => some a
    | _ => none

/-- Firing time (milliseconds after `startPolling` runs) of the n-th tick of
the timer installed by `setInterval(checkAuctionStatus, POLL_INTERVAL)` at
operator.ts line 259: the first firing happens one full interval after
installation, the rest every interval thereafter. -/
def tickTime (n : Nat) : Nat := (n + 1) * POLL_INTERVAL

/-- The timer callback is async and `setInterval` never awaits it, so the
tick-n invocation of `checkAuctionStatus` starts at `tickTime n`
unconditionally and runs until its external calls settle, `d n` milliseconds
later; `d` is chosen by the external system.  This predicate says that
invocation is still in flight at time `t`. -/
def pollCycleRunningAt (d : Nat → Nat) (n t : Nat) : Prop :=
  tickTime n ≤ t ∧ t < tickTime n + d n

/-- Start times of the successive `checkAuctionStatus` invocations made by
`main` (operator.ts lines 265-270): invocation 0 is the eager awaited call,
which runs for `d0` milliseconds; `startPolling` then installs the interval
timer, so invocation n+1 starts at `d0 + tickTime n`. -/
def cycleSchedule (d0 : Nat) : Nat → Nat
  | 0 => 0
  | n + 1 => d0 + (n + 1) * POLL_INTERVAL

/-- Snapshot of an ended auction (mirrors the spec example: price 50,
inactive, nothing remaining). -/
def sampleEndedSnapshot : AuctionSnapshot :=
  { currentPrice := 50 * 10 ^ 18, isActive := false, timeRemaining := 0 }

/-- Snapshot of a live auction. -/
def sampleActiveSnapshot : AuctionSnapshot :=
  { currentPrice := 75 * 10 ^ 18, isActive := true, timeRemaining := 120 }

/-- Winner read of an auction that received no bids: the sentinel address. -/
def sampleNoWinner : WinnerInfo :=
  { winner := addressZero, winningBid := 0, winningTokenId := 0 }

/-- Winner read with a real winner (mirrors the spec example: address 0xABC,
bid 42, token id 7). -/
def sampleWinner : WinnerInfo :=
  { winner := "0xABC", winningBid := 42, winningTokenId := 7 }

/-- Oracle whose every submission and wait succeeds, parameterised by the
three reads. -/
def happyOracle (sr : Except String AuctionSnapshot)
    (wr : Except String WinnerInfo) (ar : Except String AdminState) : Oracle :=
  { getAuctionStateRes := sr, getWinnerInfoRes := wr, getAdminStateRes := ar,
    sendRes := fun _ => Except.ok 1, waitRes := fun _ => Except.ok () }

/-- Cycle inputs: live auction. -/
def oracleActive : Oracle :=
  happyOracle (Except.ok sampleActiveSnapshot) (Except.ok sampleWinner)
    (Except.ok { proofSubmitted := false, claimed := false, ended := false })

/-- Cycle inputs: ended auction, no bids, all commands succeed. -/
def oracleNoBids : Oracle :=
  happyOracle (Except.ok sampleEndedSnapshot) (Except.ok sampleNoWinner)
    (Except.ok { proofSubmitted := false, claimed := false, ended := false })

/-- Cycle inputs: ended auction, real winner, proof not yet submitted. -/
def oracleProofPending : Oracle :=
  happyOracle (Except.ok sampleEndedSnapshot) (Except.ok sampleWinner)
    (Except.ok { proofSubmitted := false, claimed := false, ended := true })

/-- Cycle inputs: ended auction, real winner, proof submitted, payment not
yet claimed. -/
def oraclePaymentPending : Oracle :=
  happyOracle (Except.ok sampleEndedSnapshot) (Except.ok sampleWinner)
    (Except.ok { proofSubmitted := true, claimed := false, ended := true })

/-- Cycle inputs: like `oraclePaymentPending`, but the confirmation wait of
the `claimPayment` transaction fails. -/
def oracleClaimWaitFails : Oracle :=
  { getAuctionStateRes := Except.ok sampleEndedSnapshot,
    getWinnerInfoRes := Except.ok sampleWinner,
    getAdminStateRes :=
      Except.ok { proofSubmitted := true, claimed := false, ended := true },
    sendRes := fun _ => Except.ok 1,
    waitRes := fun a =>
      match a with
      | Action.claimPayment _ => Except.error ("tx reverted")
      | _ => Except.ok () }

/-- Cycle inputs: like `oracleProofPending` but with different price, time
remaining and winning bid (used to exercise insensitivity to those values). -/
def oracleProofPendingOtherPrices : Oracle :=
  happyOracle
    (Except.ok { currentPrice := 99, isActive := false, timeRemaining := 333 })
    (Except.ok { winner := "0xABC", winningBid := 1000000, winningTokenId := 7 })
    (Except.ok { proofSubmitted := false, claimed := false, ended := true })

/-- Duration assignment in which every polling invocation takes 20 seconds,
longer than the 15-second polling period. -/
def slowCycleDuration : Nat → Nat := fun _ => 20000

/-- Empty process environment. -/
def envEmpty : String → Option String := fun _ => none

/-- Process environment that asks for a 30-second polling period. -/
def envRequestingThirtySeconds : String → Option String :=
  fun k => if k = "POLL_INTERVAL" then some ("30000") else none

/-- C1: in every reconciliation cycle whose snapshot read returns
`isActive == true`, `checkAuctionStatus` dispatches no state-transition
command at all — its whole interaction trace is the one snapshot read, it
logs no error, and it returns right after logging the live-auction line. -/
theorem c1_active_cycle_dispatches_nothing (o : Oracle) (s : AuctionSnapshot)
    (hs : o.getAuctionStateRes = Except.ok s) (ha : s.isActive = true) :
    checkAuctionStatus o = ([Event.getAuctionStateOk s], none) ∧
    dispatchCalls (checkAuctionStatus o).1 = [] := by
  have hb : checkAuctionStatusBody o = ([Event.getAuctionStateOk s], Except.ok ()) := by
    simp [checkAuctionStatusBody, hs, ha]
  refine ⟨by simp [checkAuctionStatus, hb], ?_⟩
  simp [checkAuctionStatus, hb, dispatchCalls]

/-- Witness for C1 at a concrete live-auction cycle. -/
theorem c1_active_cycle_dispatches_nothing_witness :
    checkAuctionStatus oracleActive = ([Event.getAuctionStateOk sampleActiveSnapshot], none) ∧
    dispatchCalls (checkAuctionStatus oracleActive).1 = [] :=
  c1_active_cycle_dispatches_nothing oracleActive sampleActiveSnapshot rfl rfl

/-- C2: in every cycle whose snapshot is inactive and whose winner read
returns the zero-address sentinel, `checkAuctionStatus` dispatches exactly
`endAuctionNoBids` followed by `startAuction` with the default prices
(100 and 10 in 18-decimal units), in that order, awaiting the confirmation
of each, and dispatches nothing else. -/
theorem c2_no_bids_closes_then_reopens (o : Oracle) (s : AuctionSnapshot)
    (w : WinnerInfo) (v1 v2 : Nat)
    (hs : o.getAuctionStateRes = Except.ok s) (ha : s.isActive = false)
    (hw : o.getWinnerInfoRes = Except.ok w) (hz : w.winner = addressZero)
    (hs1 : o.sendRes Action.endAuctionNoBids = Except.ok v1)
    (hw1 : o.waitRes Action.endAuctionNoBids = Except.ok ())
    (hs2 : o.sendRes
      (Action.startAuction NEW_AUCTION_START_PRICE NEW_AUCTION_END_PRICE) = Except.ok v2)
    (hw2 : o.waitRes
      (Action.startAuction NEW_AUCTION_START_PRICE NEW_AUCTION_END_PRICE) = Except.ok ()) :
    checkAuctionStatus o =
      ([Event.getAuctionStateOk s, Event.getWinnerInfoOk w,
        Event.sendOk Action.endAuctionNoBids, Event.waitOk Action.endAuctionNoBids,
        Event.sendOk (Action.startAuction NEW_AUCTION_START_PRICE NEW_AUCTION_END_PRICE),
        Event.waitOk (Action.startAuction NEW_AUCTION_START_PRICE NEW_AUCTION_END_PRICE)],
       none) ∧
    dispatchCalls (checkAuctionStatus o).1 =
      [Action.endAuctionNoBids,
       Action.startAuction NEW_AUCTION_START_PRICE NEW_AUCTION_END_PRICE] ∧
    NEW_AUCTION_START_PRICE = 100 * 10 ^ 18 ∧ NEW_AUCTION_END_PRICE = 10 * 10 ^ 18 := by
  have hb : checkAuctionStatusBody o =
      ([Event.getAuctionStateOk s, Event.getWinnerInfoOk w,
        Event.sendOk Action.endAuctionNoBids, Event.waitOk Action.endAuctionNoBids,
        Event.sendOk (Action.startAuction NEW_AUCTION_START_PRICE NEW_AUCTION_END_PRICE),
        Event.waitOk (Action.startAuction NEW_AUCTION_START_PRICE NEW_AUCTION_END_PRICE)],
       Except.ok ()) := by
    simp [checkAuctionStatusBody, hs, ha, hw, hz, dispatchAndWait, hs1, hw1, hs2, hw2]
  refine ⟨by simp [checkAuctionStatus, hb], ?_, rfl, rfl⟩
  simp [checkAuctionStatus, hb, dispatchCalls]

/-- Witness for C2 at the spec example: ended snapshot at price 50,
sentinel winner, all commands confirmed. -/
theorem c2_no_bids_closes_then_reopens_witness :
    checkAuctionStatus oracleNoBids =
      ([Event.getAuctionStateOk sampleEndedSnapshot, Event.getWinnerInfoOk sampleNoWinner,
        Event.sendOk Action.endAuctionNoBids, Event.waitOk Action.endAuctionNoBids,
        Event.sendOk (Action.startAuction NEW_AUCTION_START_PRICE NEW_AUCTION_END_PRICE),
        Event.waitOk (Action.startAuction NEW_AUCTION_START_PRICE NEW_AUCTION_END_PRICE)],
       none) ∧
    dispatchCalls (checkAuctionStatus oracleNoBids).1 =
      [Action.endAuctionNoBids,
       Action.startAuction NEW_AUCTION_START_PRICE NEW_AUCTION_END_PRICE] ∧
    NEW_AUCTION_START_PRICE = 100 * 10 ^ 18 ∧ NEW_AUCTION_END_PRICE = 10 * 10 ^ 18 :=
  c2_no_bids_closes_then_reopens oracleNoBids sampleEndedSnapshot sampleNoWinner 1 1
    rfl rfl rfl rfl rfl rfl rfl rfl

/-- C3: in every cycle whose snapshot is inactive, whose winner read returns
a non-sentinel address and whose settlement read has `proofSubmitted ==
false` — the `claimed` flag is left unconstrained — `checkAuctionStatus`
dispatches exactly one action, `submitProof` with that cycle's
`winningTokenId` and the constant 32-byte zero proof value, and nothing
else. -/
theorem c3_proof_pending_submits_zero_proof (o : Oracle) (s : AuctionSnapshot)
    (w : WinnerInfo) (ad : AdminState) (v : Nat)
    (hs : o.getAuctionStateRes = Except.ok s) (ha : s.isActive = false)
    (hw : o.getWinnerInfoRes = Except.ok w) (hnz : w.winner ≠ addressZero)
    (had : o.getAdminStateRes = Except.ok ad) (hp : ad.proofSubmitted = false)
    (hd1 : o.sendRes (Action.submitProof w.winningTokenId zeroProof) = Except.ok v)
    (hd2 : o.waitRes (Action.submitProof w.winningTokenId zeroProof) = Except.ok ()) :
    checkAuctionStatus o =
      ([Event.getAuctionStateOk s, Event.getWinnerInfoOk w, Event.getAdminStateOk ad,
        Event.sendOk (Action.submitProof w.winningTokenId zeroProof),
        Event.waitOk (Action.submitProof w.winningTokenId zeroProof)], none) ∧
    dispatchCalls (checkAuctionStatus o).1 =
      [Action.submitProof w.winningTokenId zeroProof] ∧
    zeroProof = "0x" ++ String.join (List.replicate 64 ("0")) := by
  have hb : checkAuctionStatusBody o =
      ([Event.getAuctionStateOk s, Event.getWinnerInfoOk w, Event.getAdminStateOk ad,
        Event.sendOk (Action.submitProof w.winningTokenId zeroProof),
        Event.waitOk (Action.submitProof w.winningTokenId zeroProof)], Except.ok ()) := by
    simp [checkAuctionStatusBody, hs, ha, hw, hnz, had, hp, dispatchAndWait, hd1, hd2]
  refine ⟨by simp [checkAuctionStatus, hb], ?_, rfl⟩
  simp [checkAuctionStatus, hb, dispatchCalls]

/-- Witness for C3 at the spec example: winner 0xABC with token id 7,
settlement (false, false). -/
theorem c3_proof_pending_submits_zero_proof_witness :
    checkAuctionStatus oracleProofPending =
      ([Event.getAuctionStateOk sampleEndedSnapshot, Event.getWinnerInfoOk sampleWinner,
        Event.getAdminStateOk
          { proofSubmitted := false, claimed := false, ended := true },
        Event.sendOk (Action.submitProof 7 zeroProof),
        Event.waitOk (Action.submitProof 7 zeroProof)], none) ∧
    dispatchCalls (checkAuctionStatus oracleProofPending).1 =
      [Action.submitProof 7 zeroProof] ∧
    zeroProof = "0x" ++ String.join (List.replicate 64 ("0")) :=
  c3_proof_pending_submits_zero_proof oracleProofPending sampleEndedSnapshot
    sampleWinner { proofSubmitted := false, claimed := false, ended := true } 1
    rfl rfl rfl (by decide) rfl rfl rfl rfl

/-- C4: in every cycle whose snapshot is inactive, whose winner is
non-sentinel and whose settlement read has `proofSubmitted == true`,
`checkAuctionStatus` dispatches exactly one action: `claimPayment` with the
winning token id when `claimed == false`, and `startAuction` with the
default prices when `claimed == true`; nothing else is dispatched and no
error is logged. -/
theorem c4_settlement_single_action (o : Oracle) (s : AuctionSnapshot)
    (w : WinnerInfo) (ad : AdminState) (v1 v2 : Nat)
    (hs : o.getAuctionStateRes = Except.ok s) (ha : s.isActive = false)
    (hw : o.getWinnerInfoRes = Except.ok w) (hnz : w.winner ≠ addressZero)
    (had : o.getAdminStateRes = Except.ok ad) (hp : ad.proofSubmitted = true)
    (hc1 : o.sendRes (Action.claimPayment w.winningTokenId) = Except.ok v1)
    (hc2 : o.waitRes (Action.claimPayment w.winningTokenId) = Except.ok ())
    (hr1 : o.sendRes
      (Action.startAuction NEW_AUCTION_START_PRICE NEW_AUCTION_END_PRICE) = Except.ok v2)
    (hr2 : o.waitRes
      (Action.startAuction NEW_AUCTION_START_PRICE NEW_AUCTION_END_PRICE) = Except.ok ()) :
    dispatchCalls (checkAuctionStatus o).1 =
      [if ad.claimed then
        Action.startAuction NEW_AUCTION_START_PRICE NEW_AUCTION_END_PRICE
       else Action.claimPayment w.winningTokenId] ∧
    (checkAuctionStatus o).2 = none := by
  cases hc : ad.claimed with
  | false =>
    have hb : checkAuctionStatusBody o =
        ([Event.getAuctionStateOk s, Event.getWinnerInfoOk w, Event.getAdminStateOk ad,
          Event.sendOk (Action.claimPayment w.winningTokenId),
          Event.waitOk (Action.claimPayment w.winningTokenId)], Except.ok ()) := by
      simp [checkAuctionStatusBody, hs, ha, hw, hnz, had, hp, hc,
        dispatchAndWait, hc1, hc2]
    refine ⟨?_, by simp [checkAuctionStatus, hb]⟩
    simp [checkAuctionStatus, hb, dispatchCalls, hc]
  | true =>
    have hb : checkAuctionStatusBody o =
        ([Event.getAuctionStateOk s, Event.getWinnerInfoOk w, Event.getAdminStateOk ad,
          Event.sendOk (Action.startAuction NEW_AUCTION_START_PRICE NEW_AUCTION_END_PRICE),
          Event.waitOk (Action.startAuction NEW_AUCTION_START_PRICE NEW_AUCTION_END_PRICE)],
         Except.ok ()) := by
      simp [checkAuctionStatusBody, hs, ha, hw, hnz, had, hp, hc,
        dispatchAndWait, hr1, hr2]
    refine ⟨?_, by simp [checkAuctionStatus, hb]⟩
    simp [checkAuctionStatus, hb, dispatchCalls, hc]

/-- Witness for C4 at a concrete payment-pending cycle (proof submitted,
payment unclaimed): the one dispatched action is `claimPayment 7`. -/
theorem c4_settlement_single_action_witness :
    dispatchCalls (checkAuctionStatus oraclePaymentPending).1 =
      [Action.claimPayment 7] ∧
    (checkAuctionStatus oraclePaymentPending).2 = none := by
  have h := c4_settlement_single_action oraclePaymentPending sampleEndedSnapshot
    sampleWinner { proofSubmitted := true, claimed := false, ended := true } 1 1
    rfl rfl rfl (by decide) rfl rfl rfl rfl rfl rfl
  simpa using h

/-- The interaction trace of a cycle is unaffected by the try/catch wrapper. -/
theorem checkAuctionStatus_fst (o : Oracle) :
    (checkAuctionStatus o).1 = (checkAuctionStatusBody o).1 := by
  unfold checkAuctionStatus
  cases hb : checkAuctionStatusBody o with
  | mk tr r => cases r <;> simp

/-- Unfolding rule for `dispatchCalls` over one event. -/
theorem dispatchCalls_cons (ev : Event) (tr : List Event) :
    dispatchCalls (ev :: tr) =
      (match ev with
       | Event.sendOk a => [a]
       | Event.sendErr a => [a]
       | _ => []) ++ dispatchCalls tr := by
  cases ev <;> simp [dispatchCalls]

/-- Unfolding rule for `dispatchCalls` over an append. -/
theorem dispatchCalls_append (l1 l2 : List Event) :
    dispatchCalls (l1 ++ l2) = dispatchCalls l1 ++ dispatchCalls l2 := by
  simp [dispatchCalls]

/-- Unfolding rule for `dispatchCalls` over the empty trace. -/
theorem dispatchCalls_nil : dispatchCalls [] = [] := rfl

/-- A dispatch-and-wait block attempts exactly its one action, whatever the
submission and wait outcomes are. -/
theorem dispatchCalls_dispatchAndWait (o : Oracle) (a : Action) :
    dispatchCalls (dispatchAndWait o a).1 = [a] := by
  unfold dispatchAndWait
  cases h1 : o.sendRes a with
  | error e => simp [dispatchCalls]
  | ok v =>
    cases h2 : o.waitRes a with
    | error e => simp [dispatchCalls]
    | ok u => simp [dispatchCalls]

/-- A dispatch-and-wait block performs no settlement read. -/
theorem isAdminRead_dispatchAndWait (o : Oracle) (a : Action) :
    ∀ ev ∈ (dispatchAndWait o a).1, ev.isAdminRead = false := by
  unfold dispatchAndWait
  cases h1 : o.sendRes a with
  | error e => simp [Event.isAdminRead]
  | ok v =>
    cases h2 : o.waitRes a with
    | error e => simp [Event.isAdminRead]
    | ok u => simp [Event.isAdminRead]

/-- C5 counterexample: the claim says a single invocation issues at most one
state-transition command for every combination of read results, but the
cycle that observes an inactive auction with the sentinel winner submits two
commands, `endAuctionNoBids` and then `startAuction`. -/
theorem c5_counterexample_two_commands_one_cycle :
    dispatchCalls (checkAuctionStatus oracleNoBids).1 =
      [Action.endAuctionNoBids,
       Action.startAuction NEW_AUCTION_START_PRICE NEW_AUCTION_END_PRICE] ∧
    1 < (dispatchCalls (checkAuctionStatus oracleNoBids).1).length := by
  decide

/-- C5 amended: every reconciliation cycle submits at most one logical
transition: either no command, or a single command, or — only as the
close-then-reopen pair of the no-bids case — exactly `endAuctionNoBids`
followed by `startAuction` with the default prices. -/
theorem c5_amended_at_most_one_logical_transition (o : Oracle) :
    dispatchCalls (checkAuctionStatus o).1 = [] ∨
    (∃ a, dispatchCalls (checkAuctionStatus o).1 = [a]) ∨
    dispatchCalls (checkAuctionStatus o).1 =
      [Action.endAuctionNoBids,
       Action.startAuction NEW_AUCTION_START_PRICE NEW_AUCTION_END_PRICE] := by
  rw [checkAuctionStatus_fst]
  cases hs : o.getAuctionStateRes with
  | error e => left; simp [checkAuctionStatusBody, hs, dispatchCalls]
  | ok s =>
    cases ha : s.isActive with
    | true => left; simp [checkAuctionStatusBody, hs, ha, dispatchCalls]
    | false =>
      cases hw : o.getWinnerInfoRes with
      | error e => left; simp [checkAuctionStatusBody, hs, ha, hw, dispatchCalls]
      | ok w =>
        by_cases hz : w.winner = addressZero
        · cases h1 : o.sendRes Action.endAuctionNoBids with
          | error e =>
            right; left
            exact ⟨Action.endAuctionNoBids, by
              simp [checkAuctionStatusBody, hs, ha, hw, hz, dispatchAndWait, h1,
                dispatchCalls]⟩
          | ok v =>
            cases h2 : o.waitRes Action.endAuctionNoBids with
            | error e =>
              right; left
              exact ⟨Action.endAuctionNoBids, by
                simp [checkAuctionStatusBody, hs, ha, hw, hz, dispatchAndWait, h1, h2,
                  dispatchCalls]⟩
            | ok u =>
              right; right
              have hd1 : dispatchAndWait o Action.endAuctionNoBids =
                  ([Event.sendOk Action.endAuctionNoBids,
                    Event.waitOk Action.endAuctionNoBids], Except.ok ()) := by
                simp [dispatchAndWait, h1, h2]
              have hb : (checkAuctionStatusBody o).1 =
                  Event.getAuctionStateOk s :: Event.getWinnerInfoOk w ::
                    ([Event.sendOk Action.endAuctionNoBids,
                      Event.waitOk Action.endAuctionNoBids] ++
                     (dispatchAndWait o (Action.startAuction NEW_AUCTION_START_PRICE
                        NEW_AUCTION_END_PRICE)).1) := by
                simp [checkAuctionStatusBody, hs, ha, hw, hz, hd1]
              rw [hb]
              simp [dispatchCalls_cons, dispatchCalls_append,
                dispatchCalls_dispatchAndWait]
        · cases had : o.getAdminStateRes with
          | error e =>
            left; simp [checkAuctionStatusBody, hs, ha, hw, hz, had, dispatchCalls]
          | ok ad =>
            cases hp : ad.proofSubmitted with
            | false =>
              right; left
              refine ⟨Action.submitProof w.winningTokenId zeroProof, ?_⟩
              have hb : (checkAuctionStatusBody o).1 =
                  [Event.getAuctionStateOk s, Event.getWinnerInfoOk w,
                   Event.getAdminStateOk ad] ++
                  (dispatchAndWait o
                    (Action.submitProof w.winningTokenId zeroProof)).1 := by
                simp [checkAuctionStatusBody, hs, ha, hw, hz, had, hp]
              rw [hb]
              simp [dispatchCalls_cons, dispatchCalls_append,
                dispatchCalls_dispatchAndWait, dispatchCalls_nil]
            | true =>
              cases hc : ad.claimed with
              | false =>
                right; left
                refine ⟨Action.claimPayment w.winningTokenId, ?_⟩
                have hb : (checkAuctionStatusBody o).1 =
                    [Event.getAuctionStateOk s, Event.getWinnerInfoOk w,
                     Event.getAdminStateOk ad] ++
                    (dispatchAndWait o
                      (Action.claimPayment w.winningTokenId)).1 := by
                  simp [checkAuctionStatusBody, hs, ha, hw, hz, had, hp, hc]
                rw [hb]
                simp [dispatchCalls_cons, dispatchCalls_append,
                  dispatchCalls_dispatchAndWait, dispatchCalls_nil]
              | true =>
                right; left
                refine ⟨Action.startAuction NEW_AUCTION_START_PRICE
                  NEW_AUCTION_END_PRICE, ?_⟩
                have hb : (checkAuctionStatusBody o).1 =
                    [Event.getAuctionStateOk s, Event.getWinnerInfoOk w,
                     Event.getAdminStateOk ad] ++
                    (dispatchAndWait o (Action.startAuction NEW_AUCTION_START_PRICE
                      NEW_AUCTION_END_PRICE)).1 := by
                  simp [checkAuctionStatusBody, hs, ha, hw, hz, had, hp, hc]
                rw [hb]
                simp [dispatchCalls_cons, dispatchCalls_append,
                  dispatchCalls_dispatchAndWait, dispatchCalls_nil]

/-- C6: every error raised inside one reconciliation cycle is caught at the
cycle boundary and logged rather than propagated — `checkAuctionStatus`
maps a body that threw `e` to a normal return carrying the logged message
`e`; moreover a failed call is always the last interaction of the cycle, so
no further read or dispatch is attempted after a failure; and every cycle
begins with a fresh snapshot read, so the next scheduled cycle starts from
scratch. -/
theorem c6_cycle_errors_caught_and_abort_rest (o : Oracle) :
    (∀ e, (checkAuctionStatusBody o).2 = Except.error e →
      checkAuctionStatus o = ((checkAuctionStatusBody o).1, some e)) ∧
    (∀ ev ∈ (checkAuctionStatus o).1.dropLast, ev.isFailure = false) ∧
    ((checkAuctionStatus o).1.head?).map Event.isSnapshotRead = some true := by
  refine ⟨?_, ?_⟩
  · intro e he
    unfold checkAuctionStatus
    rcases hb : checkAuctionStatusBody o with ⟨tr, r⟩
    rw [hb] at he
    cases r with
    | ok u => simp at he
    | error e2 =>
      simp only [Except.error.injEq] at he
      simp [he]
  · rw [checkAuctionStatus_fst]
    cases hs : o.getAuctionStateRes with
    | error e =>
      simp [checkAuctionStatusBody, hs, List.dropLast, Event.isSnapshotRead]
    | ok s =>
      cases ha : s.isActive with
      | true =>
        simp [checkAuctionStatusBody, hs, ha, List.dropLast, Event.isSnapshotRead]
      | false =>
        cases hw : o.getWinnerInfoRes with
        | error e =>
          simp [checkAuctionStatusBody, hs, ha, hw, List.dropLast, Event.isFailure,
            Event.isSnapshotRead]
        | ok w =>
          by_cases hz : w.winner = addressZero
          · cases h1 : o.sendRes Action.endAuctionNoBids with
            | error e =>
              simp [checkAuctionStatusBody, hs, ha, hw, hz, dispatchAndWait, h1,
                List.dropLast, Event.isFailure, Event.isSnapshotRead]
            | ok v =>
              cases h2 : o.waitRes Action.endAuctionNoBids with
              | error e =>
                simp [checkAuctionStatusBody, hs, ha, hw, hz, dispatchAndWait, h1, h2,
                  List.dropLast, Event.isFailure, Event.isSnapshotRead]
              | ok u =>
                cases h3 : o.sendRes (Action.startAuction NEW_AUCTION_START_PRICE
                    NEW_AUCTION_END_PRICE) with
                | error e =>
                  simp [checkAuctionStatusBody, hs, ha, hw, hz, dispatchAndWait,
                    h1, h2, h3, List.dropLast, Event.isFailure, Event.isSnapshotRead]
                | ok v2 =>
                  cases h4 : o.waitRes (Action.startAuction NEW_AUCTION_START_PRICE
                      NEW_AUCTION_END_PRICE) with
                  | error e =>
                    simp [checkAuctionStatusBody, hs, ha, hw, hz, dispatchAndWait,
                      h1, h2, h3, h4, List.dropLast, Event.isFailure,
                      Event.isSnapshotRead]
                  | ok u2 =>
                    simp [checkAuctionStatusBody, hs, ha, hw, hz, dispatchAndWait,
                      h1, h2, h3, h4, List.dropLast, Event.isFailure,
                      Event.isSnapshotRead]
          · cases had : o.getAdminStateRes with
            | error e =>
              simp [checkAuctionStatusBody, hs, ha, hw, hz, had, List.dropLast,
                Event.isFailure, Event.isSnapshotRead]
            | ok ad =>
              have hcase : ∀ a : Action,
                  (∀ ev ∈ ([Event.getAuctionStateOk s, Event.getWinnerInfoOk w,
                      Event.getAdminStateOk ad] ++
                      (dispatchAndWait o a).1).dropLast, ev.isFailure = false) ∧
                  ((([Event.getAuctionStateOk s, Event.getWinnerInfoOk w,
                      Event.getAdminStateOk ad] ++
                      (dispatchAndWait o a).1)).head?).map Event.isSnapshotRead =
                    some true := by
                intro a
                cases h1 : o.sendRes a with
                | error e =>
                  simp [dispatchAndWait, h1, List.dropLast, Event.isFailure,
                    Event.isSnapshotRead]
                | ok v =>
                  cases h2 : o.waitRes a with
                  | error e =>
                    simp [dispatchAndWait, h1, h2, List.dropLast, Event.isFailure,
                      Event.isSnapshotRead]
                  | ok u =>
                    simp [dispatchAndWait, h1, h2, List.dropLast, Event.isFailure,
                      Event.isSnapshotRead]
              cases hp : ad.proofSubmitted with
              | false =>
                have hb : (checkAuctionStatusBody o).1 =
                    [Event.getAuctionStateOk s, Event.getWinnerInfoOk w,
                     Event.getAdminStateOk ad] ++
                    (dispatchAndWait o
                      (Action.submitProof w.winningTokenId zeroProof)).1 := by
                  simp [checkAuctionStatusBody, hs, ha, hw, hz, had, hp]
                rw [hb]
                exact hcase (Action.submitProof w.winningTokenId zeroProof)
              | true =>
                cases hc : ad.claimed with
                | false =>
                  have hb : (checkAuctionStatusBody o).1 =
                      [Event.getAuctionStateOk s, Event.getWinnerInfoOk w,
                       Event.getAdminStateOk ad] ++
                      (dispatchAndWait o
                        (Action.claimPayment w.winningTokenId)).1 := by
                    simp [checkAuctionStatusBody, hs, ha, hw, hz, had, hp, hc]
                  rw [hb]
                  exact hcase (Action.claimPayment w.winningTokenId)
                | true =>
                  have hb : (checkAuctionStatusBody o).1 =
                      [Event.getAuctionStateOk s, Event.getWinnerInfoOk w,
                       Event.getAdminStateOk ad] ++
                      (dispatchAndWait o (Action.startAuction NEW_AUCTION_START_PRICE
                        NEW_AUCTION_END_PRICE)).1 := by
                    simp [checkAuctionStatusBody, hs, ha, hw, hz, had, hp, hc]
                  rw [hb]
                  exact hcase (Action.startAuction NEW_AUCTION_START_PRICE
                    NEW_AUCTION_END_PRICE)

/-- Witness for C6 at a concrete cycle whose `claimPayment` confirmation
wait fails: the error is caught and logged, not propagated. -/
theorem c6_cycle_errors_caught_and_abort_rest_witness :
    checkAuctionStatus oracleClaimWaitFails =
      ((checkAuctionStatusBody oracleClaimWaitFails).1, some ("tx reverted")) :=
  (c6_cycle_errors_caught_and_abort_rest oracleClaimWaitFails).1 ("tx reverted") rfl

/-- C7 counterexample: the claim says a timer tick due while the previous
cycle is still executing is skipped, so two invocations never run
concurrently.  `startPolling` installs a bare
`setInterval(checkAuctionStatus, POLL_INTERVAL)`, which starts a new
invocation of the async callback at every tick without waiting for the
previous one to settle, so with every invocation taking 20 seconds the
invocations started by ticks 0 and 1 are both in flight 30 seconds after
polling begins. -/
theorem c7_counterexample_overlapping_cycles :
    pollCycleRunningAt slowCycleDuration 0 30000 ∧
    pollCycleRunningAt slowCycleDuration 1 30000 ∧ (0 : Nat) ≠ 1 := by
  unfold pollCycleRunningAt tickTime POLL_INTERVAL slowCycleDuration
  decide

/-- C7 amended: the interval timer starts a new `checkAuctionStatus`
invocation at every tick regardless of whether the previous invocation has
completed; whenever an invocation outlasts one polling period, it is still
in flight at the next tick, at which moment the next invocation is also
running — overlapping cycles, not skipped ticks. -/
theorem c7_amended_ticks_not_skipped (d : Nat → Nat) (n : Nat)
    (hlong : POLL_INTERVAL < d n) (hnext : 0 < d (n + 1)) :
    pollCycleRunningAt d n (tickTime (n + 1)) ∧
    pollCycleRunningAt d (n + 1) (tickTime (n + 1)) := by
  unfold pollCycleRunningAt tickTime POLL_INTERVAL at *
  omega

/-- Witness for C7 amended with every invocation lasting 20 seconds. -/
theorem c7_amended_ticks_not_skipped_witness :
    pollCycleRunningAt slowCycleDuration 0 (tickTime 1) ∧
    pollCycleRunningAt slowCycleDuration 1 (tickTime 1) :=
  c7_amended_ticks_not_skipped slowCycleDuration 0 (by decide) (by decide)

/-- C8: the settlement read `getAdminState()` happens only after the same
cycle's winner read returned a non-sentinel address: whenever the trace of
a cycle contains a settlement-read event, the winner read succeeded with a
winner different from the zero address, and the trace begins with the
snapshot read followed by that winner read. -/
theorem c8_admin_read_guarded_by_winner (o : Oracle) (s : AuctionSnapshot)
    (w : WinnerInfo)
    (hs : o.getAuctionStateRes = Except.ok s)
    (hw : o.getWinnerInfoRes = Except.ok w)
    (hadm : ∃ ev ∈ (checkAuctionStatus o).1, ev.isAdminRead = true) :
    w.winner ≠ addressZero ∧
    ∃ rest, (checkAuctionStatus o).1 =
      Event.getAuctionStateOk s :: Event.getWinnerInfoOk w :: rest := by
  rw [checkAuctionStatus_fst] at hadm ⊢
  cases ha : s.isActive with
  | true =>
    rcases hadm with ⟨ev, hmem, hev⟩
    have hb : (checkAuctionStatusBody o).1 = [Event.getAuctionStateOk s] := by
      simp [checkAuctionStatusBody, hs, ha]
    rw [hb] at hmem
    simp only [List.mem_singleton] at hmem
    subst hmem
    simp [Event.isAdminRead] at hev
  | false =>
    by_cases hz : w.winner = addressZero
    · exfalso
      rcases hadm with ⟨ev, hmem, hev⟩
      cases h1 : o.sendRes Action.endAuctionNoBids with
      | error e =>
        have hb : (checkAuctionStatusBody o).1 =
            [Event.getAuctionStateOk s, Event.getWinnerInfoOk w,
             Event.sendErr Action.endAuctionNoBids] := by
          simp [checkAuctionStatusBody, hs, ha, hw, hz, dispatchAndWait, h1]
        rw [hb] at hmem
        simp only [List.mem_cons, List.not_mem_nil, or_false] at hmem
        rcases hmem with rfl | rfl | rfl <;> simp [Event.isAdminRead] at hev
      | ok v =>
        cases h2 : o.waitRes Action.endAuctionNoBids with
        | error e =>
          have hb : (checkAuctionStatusBody o).1 =
              [Event.getAuctionStateOk s, Event.getWinnerInfoOk w,
               Event.sendOk Action.endAuctionNoBids,
               Event.waitErr Action.endAuctionNoBids] := by
            simp [checkAuctionStatusBody, hs, ha, hw, hz, dispatchAndWait, h1, h2]
          rw [hb] at hmem
          simp only [List.mem_cons, List.not_mem_nil, or_false] at hmem
          rcases hmem with rfl | rfl | rfl | rfl <;> simp [Event.isAdminRead] at hev
        | ok u =>
          have hd1 : dispatchAndWait o Action.endAuctionNoBids =
              ([Event.sendOk Action.endAuctionNoBids,
                Event.waitOk Action.endAuctionNoBids], Except.ok ()) := by
            simp [dispatchAndWait, h1, h2]
          have hb : (checkAuctionStatusBody o).1 =
              Event.getAuctionStateOk s :: Event.getWinnerInfoOk w ::
                ([Event.sendOk Action.endAuctionNoBids,
                  Event.waitOk Action.endAuctionNoBids] ++
                 (dispatchAndWait o (Action.startAuction NEW_AUCTION_START_PRICE
                    NEW_AUCTION_END_PRICE)).1) := by
            simp [checkAuctionStatusBody, hs, ha, hw, hz, hd1]
          rw [hb] at hmem
          simp only [List.cons_append, List.nil_append, List.mem_cons] at hmem
          rcases hmem with rfl | rfl | rfl | rfl | hmem
          · simp [Event.isAdminRead] at hev
          · simp [Event.isAdminRead] at hev
          · simp [Event.isAdminRead] at hev
          · simp [Event.isAdminRead] at hev
          · have hf := isAdminRead_dispatchAndWait o
              (Action.startAuction NEW_AUCTION_START_PRICE NEW_AUCTION_END_PRICE)
              ev hmem
            rw [hf] at hev
            exact Bool.false_ne_true hev
    · refine ⟨hz, ?_⟩
      cases had : o.getAdminStateRes with
      | error e =>
        refine ⟨[Event.getAdminStateErr], ?_⟩
        simp [checkAuctionStatusBody, hs, ha, hw, hz, had]
      | ok ad =>
        cases hp : ad.proofSubmitted with
        | false =>
          refine ⟨Event.getAdminStateOk ad ::
            (dispatchAndWait o (Action.submitProof w.winningTokenId zeroProof)).1, ?_⟩
          simp [checkAuctionStatusBody, hs, ha, hw, hz, had, hp]
        | true =>
          cases hc : ad.claimed with
          | false =>
            refine ⟨Event.getAdminStateOk ad ::
              (dispatchAndWait o (Action.claimPayment w.winningTokenId)).1, ?_⟩
            simp [checkAuctionStatusBody, hs, ha, hw, hz, had, hp, hc]
          | true =>
            refine ⟨Event.getAdminStateOk ad ::
              (dispatchAndWait o (Action.startAuction NEW_AUCTION_START_PRICE
                NEW_AUCTION_END_PRICE)).1, ?_⟩
            simp [checkAuctionStatusBody, hs, ha, hw, hz, had, hp, hc]

/-- Witness for C8 at a concrete settled-winner cycle. -/
theorem c8_admin_read_guarded_by_winner_witness :
    sampleWinner.winner ≠ addressZero :=
  (c8_admin_read_guarded_by_winner oraclePaymentPending sampleEndedSnapshot
    sampleWinner rfl rfl (by decide)).1

/-- C9 counterexample: the claim says the polling period is configurable via
the process environment; but operator.ts line 18 hard-codes
`POLL_INTERVAL = 15 * 1000`, so the interval the code uses is 15000 ms for
every environment — even one that sets a POLL_INTERVAL variable — while the
code does read other configuration (such as PROVIDER_WS) from the
environment. -/
theorem c9_counterexample_interval_not_configurable :
    pollIntervalOf envRequestingThirtySeconds = 15 * 1000 ∧
    pollIntervalOf envEmpty = 15 * 1000 ∧
    envRequestingThirtySeconds ("POLL_INTERVAL") ≠ envEmpty ("POLL_INTERVAL") ∧
    PROVIDER_WS envRequestingThirtySeconds = PROVIDER_WS envEmpty := by
  refine ⟨rfl, rfl, ?_, rfl⟩
  unfold envRequestingThirtySeconds envEmpty
  decide

/-- C9 amended: `main` runs `checkAuctionStatus` once eagerly at startup,
before the first timer tick, and thereafter on a fixed period of exactly
15000 ms hard-coded in the source (not read from the environment); the
schedule of invocations is unbounded, so the loop never stops on its own. -/
theorem c9_amended_eager_then_fixed_hardcoded_period (d0 n : Nat) :
    cycleSchedule d0 0 = 0 ∧
    cycleSchedule d0 0 < d0 + tickTime 0 ∧
    cycleSchedule d0 (n + 1) = d0 + tickTime n ∧
    cycleSchedule d0 (n + 2) - cycleSchedule d0 (n + 1) = POLL_INTERVAL ∧
    cycleSchedule d0 n < cycleSchedule d0 (n + 1) ∧
    POLL_INTERVAL = 15 * 1000 ∧
    pollIntervalOf envEmpty = POLL_INTERVAL := by
  refine ⟨rfl, ?_, rfl, ?_, ?_, rfl, rfl⟩
  · simp only [cycleSchedule, tickTime, POLL_INTERVAL]
    omega
  · simp only [cycleSchedule, POLL_INTERVAL]
    omega
  · cases n with
    | zero =>
      simp only [cycleSchedule, POLL_INTERVAL]
      omega
    | succ m =>
      simp only [cycleSchedule, POLL_INTERVAL]
      omega

/-- C10: the action decision is insensitive to price and bid values — two
cycles whose reads agree on `isActive`, the winner address, the winning
token id, `proofSubmitted` and `claimed` (the `ended` flag, current price,
time remaining and winning bid may all differ) and whose dispatch outcomes
agree, submit the same sequence of commands with the same arguments. -/
theorem c10_decision_insensitive_to_prices (o1 o2 : Oracle)
    (s1 s2 : AuctionSnapshot) (w1 w2 : WinnerInfo) (ad1 ad2 : AdminState)
    (hs1 : o1.getAuctionStateRes = Except.ok s1)
    (hs2 : o2.getAuctionStateRes = Except.ok s2)
    (hactive : s1.isActive = s2.isActive)
    (hw1 : o1.getWinnerInfoRes = Except.ok w1)
    (hw2 : o2.getWinnerInfoRes = Except.ok w2)
    (hwin : w1.winner = w2.winner) (htok : w1.winningTokenId = w2.winningTokenId)
    (had1 : o1.getAdminStateRes = Except.ok ad1)
    (had2 : o2.getAdminStateRes = Except.ok ad2)
    (hps : ad1.proofSubmitted = ad2.proofSubmitted)
    (hcl : ad1.claimed = ad2.claimed)
    (hsend : o1.sendRes = o2.sendRes) (hwait : o1.waitRes = o2.waitRes) :
    dispatchCalls (checkAuctionStatus o1).1 =
      dispatchCalls (checkAuctionStatus o2).1 := by
  have hdw : ∀ a, dispatchAndWait o1 a = dispatchAndWait o2 a := by
    intro a
    unfold dispatchAndWait
    rw [hsend, hwait]
  rw [checkAuctionStatus_fst, checkAuctionStatus_fst]
  cases ha : s1.isActive with
  | true =>
    have ha2 : s2.isActive = true := hactive.symm.trans ha
    simp [checkAuctionStatusBody, hs1, hs2, ha, ha2, dispatchCalls]
  | false =>
    have ha2 : s2.isActive = false := hactive.symm.trans ha
    by_cases hz : w1.winner = addressZero
    · have hz2 : w2.winner = addressZero := hwin.symm.trans hz
      rcases hd : dispatchAndWait o2 Action.endAuctionNoBids with ⟨tr1, r1⟩
      have hd1 : dispatchAndWait o1 Action.endAuctionNoBids = (tr1, r1) :=
        (hdw Action.endAuctionNoBids).trans hd
      cases r1 with
      | error e =>
        have hb1 : (checkAuctionStatusBody o1).1 =
            Event.getAuctionStateOk s1 :: Event.getWinnerInfoOk w1 :: tr1 := by
          simp [checkAuctionStatusBody, hs1, ha, hw1, hz, hd1]
        have hb2 : (checkAuctionStatusBody o2).1 =
            Event.getAuctionStateOk s2 :: Event.getWinnerInfoOk w2 :: tr1 := by
          simp [checkAuctionStatusBody, hs2, ha2, hw2, hz2, hd]
        rw [hb1, hb2]
        simp [dispatchCalls_cons]
      | ok u =>
        have hb1 : (checkAuctionStatusBody o1).1 =
            Event.getAuctionStateOk s1 :: Event.getWinnerInfoOk w1 ::
              (tr1 ++ (dispatchAndWait o2 (Action.startAuction
                NEW_AUCTION_START_PRICE NEW_AUCTION_END_PRICE)).1) := by
          simp [checkAuctionStatusBody, hs1, ha, hw1, hz, hd1, hdw]
        have hb2 : (checkAuctionStatusBody o2).1 =
            Event.getAuctionStateOk s2 :: Event.getWinnerInfoOk w2 ::
              (tr1 ++ (dispatchAndWait o2 (Action.startAuction
                NEW_AUCTION_START_PRICE NEW_AUCTION_END_PRICE)).1) := by
          simp [checkAuctionStatusBody, hs2, ha2, hw2, hz2, hd]
        rw [hb1, hb2]
        simp [dispatchCalls_cons]
    · have hz2 : ¬ w2.winner = addressZero := fun h => hz (hwin.trans h)
      cases hp : ad1.proofSubmitted with
      | false =>
        have hp2 : ad2.proofSubmitted = false := hps.symm.trans hp
        have hb1 : (checkAuctionStatusBody o1).1 =
            [Event.getAuctionStateOk s1, Event.getWinnerInfoOk w1,
             Event.getAdminStateOk ad1] ++
            (dispatchAndWait o2 (Action.submitProof w2.winningTokenId zeroProof)).1 := by
          simp [checkAuctionStatusBody, hs1, ha, hw1, hz, had1, hp, hdw, htok]
        have hb2 : (checkAuctionStatusBody o2).1 =
            [Event.getAuctionStateOk s2, Event.getWinnerInfoOk w2,
             Event.getAdminStateOk ad2] ++
            (dispatchAndWait o2 (Action.submitProof w2.winningTokenId zeroProof)).1 := by
          simp [checkAuctionStatusBody, hs2, ha2, hw2, hz2, had2, hp2]
        rw [hb1, hb2]
        simp [dispatchCalls_cons, dispatchCalls_append]
      | true =>
        have hp2 : ad2.proofSubmitted = true := hps.symm.trans hp
        cases hc : ad1.claimed with
        | false =>
          have hc2 : ad2.claimed = false := hcl.symm.trans hc
          have hb1 : (checkAuctionStatusBody o1).1 =
              [Event.getAuctionStateOk s1, Event.getWinnerInfoOk w1,
               Event.getAdminStateOk ad1] ++
              (dispatchAndWait o2 (Action.claimPayment w2.winningTokenId)).1 := by
            simp [checkAuctionStatusBody, hs1, ha, hw1, hz, had1, hp, hc, hdw, htok]
          have hb2 : (checkAuctionStatusBody o2).1 =
              [Event.getAuctionStateOk s2, Event.getWinnerInfoOk w2,
               Event.getAdminStateOk ad2] ++
              (dispatchAndWait o2 (Action.claimPayment w2.winningTokenId)).1 := by
            simp [checkAuctionStatusBody, hs2, ha2, hw2, hz2, had2, hp2, hc2]
          rw [hb1, hb2]
          simp [dispatchCalls_cons, dispatchCalls_append]
        | true =>
          have hc2 : ad2.claimed = true := hcl.symm.trans hc
          have hb1 : (checkAuctionStatusBody o1).1 =
              [Event.getAuctionStateOk s1, Event.getWinnerInfoOk w1,
               Event.getAdminStateOk ad1] ++
              (dispatchAndWait o2 (Action.startAuction NEW_AUCTION_START_PRICE
                NEW_AUCTION_END_PRICE)).1 := by
            simp [checkAuctionStatusBody, hs1, ha, hw1, hz, had1, hp, hc, hdw]
          have hb2 : (checkAuctionStatusBody o2).1 =
              [Event.getAuctionStateOk s2, Event.getWinnerInfoOk w2,
               Event.getAdminStateOk ad2] ++
              (dispatchAndWait o2 (Action.startAuction NEW_AUCTION_START_PRICE
                NEW_AUCTION_END_PRICE)).1 := by
            simp [checkAuctionStatusBody, hs2, ha2, hw2, hz2, had2, hp2, hc2]
          rw [hb1, hb2]
          simp [dispatchCalls_cons, dispatchCalls_append]

/-- Witness for C10: the proof-pending cycle with the spec-example reads and
the same cycle with different price, time remaining and winning bid submit
the same single command. -/
theorem c10_decision_insensitive_to_prices_witness :
    dispatchCalls (checkAuctionStatus oracleProofPending).1 =
      dispatchCalls (checkAuctionStatus oracleProofPendingOtherPrices).1 :=
  c10_decision_insensitive_to_prices oracleProofPending
    oracleProofPendingOtherPrices sampleEndedSnapshot
    { currentPrice := 99, isActive := false, timeRemaining := 333 }
    sampleWinner
    { winner := "0xABC", winningBid := 1000000, winningTokenId := 7 }
    { proofSubmitted := false, claimed := false, ended := true }
    { proofSubmitted := false, claimed := false, ended := true }
    rfl rfl rfl rfl rfl rfl rfl rfl rfl rfl rfl rfl rfl

end OperatorAgent
